import Mathlib

/-!
Verification of the Hyperliquid order-executor script
(`src/scripts/order_executor.py`) against its natural-language
specification.

The script is shallowly embedded as pure Lean functions:

* JSON input documents become the `InputDoc` structure (a field with value
  `none` models an absent JSON key);
* prices and sizes are modelled as exact rationals `ℚ`; Python's decimal
  `round(x, n)` (banker's rounding) becomes `roundDec` over `ℚ`;
* the network collaborators (the mid-price feed and the exchange client)
  become oracles collected in an `Env` record, so that a function whose
  result is independent of the `Env` provably makes no network call;
* Python exceptions become the `Err` inductive carried in `Except`, with
  `Err.message` playing the role of `str(e)`;
* instead of performing the SDK call, `execute_order` / `cancel_order`
  return the fully resolved argument tuple (`SubmittedOrder` /
  `SubmittedCancel`) that the script passes to the exchange client.
-/

/-- A JSON scalar as it can appear in the `price` / `size` / `orderId`
fields of the input document: either a number or a string. -/
inductive JVal where
  | num (q : ℚ)
  | str (s : String)
deriving DecidableEq

/-- Python truthiness of a JSON scalar: the number 0 and the empty string
are falsy, everything else is truthy. -/
def falsyJ : JVal → Bool
  | .num q => q == 0
  | .str s => s == ""

/-- Python truthiness of `data.get(key)` for a possibly absent JSON value:
an absent key (`None`) is falsy. -/
def falsyOptJ : Option JVal → Bool
  | none => true
  | some v => falsyJ v

/-- Python truthiness of `data.get(key)` for a possibly absent string
field: absent (`None`) and the empty string are falsy. -/
def truthyS : Option String → Bool
  | none => false
  | some s => s != ""

/-- The one JSON input document read by the script.  Every field of the
Python dict that the script touches is present; `none` models an absent
key. -/
structure InputDoc where
  action : Option String := none
  asset : Option String := none
  isBuy : Option Bool := none
  size : Option JVal := none
  price : Option JVal := none
  orderType : Option String := none
  timeInForce : Option String := none
  reduceOnly : Option Bool := none
  isTestnet : Option Bool := none
  orderId : Option JVal := none
  hyperliquidAddress : Option String := none
  hyperliquidPrivateKey : Option String := none
  apiWalletPrivateKey : Option String := none
deriving DecidableEq

/-- The Python exceptions the script can raise, as observable data.
`keyError k` is `KeyError(k)` from `data[k]` on a missing key,
`valueError m` is `ValueError(m)`, `attrError m` is `AttributeError(m)`,
and `exchangeError m` stands for any exception surfaced by the external
exchange client / SDK. -/
inductive Err where
  | keyError (k : String)
  | valueError (m : String)
  | attrError (m : String)
  | exchangeError (m : String)
deriving DecidableEq

/-- Python's `str(e)` on an exception: a `KeyError` prints its key in
quotes, the others print their message. -/
def Err.message : Err → String
  | .keyError k => "'" ++ k ++ "'"
  | .valueError m => m
  | .attrError m => m
  | .exchangeError m => m

/-- `data[k]` on the Python dict: the value when the key is present,
`KeyError(k)` otherwise. -/
def getKey {α : Type} (v : Option α) (k : String) : Except Err α :=
  match v with
  | some a => .ok a
  | none => .error (.keyError k)

/-- ASCII upper-casing of one character, the effect of Python's
`str.upper()` on the order-type strings the script handles. -/
def upperChar (c : Char) : Char :=
  if 'a' ≤ c ∧ c ≤ 'z' then Char.ofNat (c.toNat - 32) else c

/-- Python `s.upper()` restricted to ASCII. -/
def upperAscii (s : String) : String := ⟨s.data.map upperChar⟩

/-- Lines 103-104 of the script:
`if secret_key.startswith('0x'): secret_key = secret_key[2:]`. -/
def strip0x (s : String) : String :=
  match s.data with
  | '0' :: 'x' :: rest => ⟨rest⟩
  | _ => s

/-- Value of a list of decimal digit characters; `none` when the list
contains a non-digit (the list may be empty, giving 0). -/
def digitsToNat (l : List Char) : Option ℕ :=
  l.foldl (fun acc c =>
    acc.bind fun n => if c.isDigit then some (10 * n + (c.toNat - 48)) else none) (some 0)

/-- Whitespace stripped by Python `float()` from string arguments. -/
def isSpaceChar (c : Char) : Bool := c == ' ' || c == '\t' || c == '\n' || c == '\r'

/-- Strip leading and trailing whitespace from a character list. -/
def trimChars (l : List Char) : List Char :=
  ((l.dropWhile isSpaceChar).reverse.dropWhile isSpaceChar).reverse

/-- Parse an unsigned decimal literal (`"12"`, `"12.5"`, `".5"`, `"12."`)
as an exact rational; `none` on anything else. -/
def parseUnsigned (l : List Char) : Option ℚ :=
  let intPart := l.takeWhile (fun c => c ≠ '.')
  let rest := l.dropWhile (fun c => c ≠ '.')
  match rest with
  | [] => if intPart.isEmpty then none else (digitsToNat intPart).map (fun n => (n : ℚ))
  | _ :: frac =>
    if intPart.isEmpty && frac.isEmpty then none
    else
      (digitsToNat intPart).bind fun i =>
        (digitsToNat frac).map fun f =>
          (i : ℚ) + (f : ℚ) / (10 ^ frac.length)

/-- Python `float(s)` on a string, restricted to the finite decimal
literals relevant here (optional sign, decimal digits, optional fractional
part); `none` models the `ValueError` raised on anything unparsable. -/
def pyFloatStr (s : String) : Option ℚ :=
  match trimChars s.data with
  | '-' :: rest => (parseUnsigned rest).map Neg.neg
  | '+' :: rest => parseUnsigned rest
  | l => parseUnsigned l

/-- Python `float(v)` on a JSON scalar: numbers pass through, strings are
parsed, failure raises the `ValueError` that `float()` raises. -/
def pyFloatE (v : JVal) : Except Err ℚ :=
  match v with
  | .num q => .ok q
  | .str s =>
    match pyFloatStr s with
    | some q => .ok q
    | none => .error (.valueError ("could not convert string to float: '" ++ s ++ "'"))

/-- Round a rational to the nearest integer, ties to the even integer:
the rounding Python's built-in `round` uses. -/
def roundHalfEven (q : ℚ) : ℤ :=
  if q - ⌊q⌋ < 1/2 then ⌊q⌋
  else if 1/2 < q - ⌊q⌋ then ⌊q⌋ + 1
  else if ⌊q⌋ % 2 = 0 then ⌊q⌋ else ⌊q⌋ + 1

/-- Python `round(q, n)`: round to `n` decimal places, ties to even
(idealised over exact rationals). -/
def roundDec (q : ℚ) (n : ℕ) : ℚ := (roundHalfEven (q * 10 ^ n) : ℚ) / 10 ^ n

/-- The identity resolved from the credential fields: the key string
handed to `Account.from_key` (after `0x`-stripping), the account address
the actions are attributed to, and whether the API-wallet branch was
taken (which decides whether `Exchange` receives an explicit
`account_address`). -/
structure Identity where
  signKey : String
  accountAddress : String
  viaApiWallet : Bool
deriving DecidableEq

/-- The fully resolved argument tuple of the `exchange.order(...)` call
at lines 159-166 of the script, together with the identity and network
the `Exchange` object was built from. -/
structure SubmittedOrder where
  ident : Identity
  asset : String
  isBuy : Bool
  size : ℚ
  price : ℚ
  tif : String
  reduceOnly : Bool
  isTestnet : Bool
deriving DecidableEq

/-- The fully resolved argument tuple of the `exchange.cancel(...)` call
at line 215 of the script. -/
structure SubmittedCancel where
  ident : Identity
  asset : String
  oid : JVal
  isTestnet : Bool
deriving DecidableEq

/-- The oracles standing for the script's network collaborators.  `mids`
is the exchange's public mid-price feed (`Info.all_mids`), keyed by the
testnet flag and the asset symbol; the four `*Resp` fields are the
exchange client's reactions (native response, or a raised exception
message) to the calls the script can make. -/
structure Env where
  mids : Bool → String → Option ℚ
  orderResp : SubmittedOrder → Except String String
  cancelResp : SubmittedCancel → Except String String
  positionsResp : Bool → String → Except String String
  openOrdersResp : Bool → String → Except String String

/-- Lines 87-113 of `execute_order`: pick the API-wallet key if truthy,
else the main key; look up `data['hyperliquidAddress']` (a `KeyError`
when absent); raise `ValueError` when the chosen secret is falsy; strip a
leading `0x` from the secret before key derivation. -/
def resolveIdentity (data : InputDoc) : Except Err Identity :=
  let api_wallet_key := data.apiWalletPrivateKey
  let branch : Except Err (Option String × String) :=
    if truthyS api_wallet_key then
      match data.hyperliquidAddress with
      | some a => .ok (api_wallet_key, a)
      | none => .error (.keyError "hyperliquidAddress")
    else
      match data.hyperliquidAddress with
      | some a => .ok (data.hyperliquidPrivateKey, a)
      | none => .error (.keyError "hyperliquidAddress")
  match branch with
  | .error e => .error e
  | .ok (sk, addr) =>
    if truthyS sk then
      match sk with
      | some s => .ok ⟨strip0x s, addr, truthyS api_wallet_key⟩
      | none => .error (.valueError "No private key provided (neither apiWalletPrivateKey nor hyperliquidPrivateKey)")
    else
      .error (.valueError "No private key provided (neither apiWalletPrivateKey nor hyperliquidPrivateKey)")

/-- Lines 190-207 of `cancel_order`: same branch on the API-wallet key,
but with no `if not secret_key` guard — when both keys are absent the
script reaches `secret_key.startswith('0x')` with `secret_key = None`
and raises `AttributeError`. -/
def resolveIdentityCancel (data : InputDoc) : Except Err Identity :=
  let api_wallet_key := data.apiWalletPrivateKey
  let branch : Except Err (Option String × String) :=
    if truthyS api_wallet_key then
      match data.hyperliquidAddress with
      | some a => .ok (api_wallet_key, a)
      | none => .error (.keyError "hyperliquidAddress")
    else
      match data.hyperliquidAddress with
      | some a => .ok (data.hyperliquidPrivateKey, a)
      | none => .error (.keyError "hyperliquidAddress")
  match branch with
  | .error e => .error e
  | .ok (sk, addr) =>
    match sk with
    | none => .error (.attrError "'NoneType' object has no attribute 'startswith'")
    | some s => .ok ⟨strip0x s, addr, truthyS api_wallet_key⟩

/-- Lines 33-55 (`get_market_price`): look the asset up in the mid-price
feed, raising `ValueError` when the symbol is absent. -/
def get_market_price (env : Env) (asset : String) (is_testnet : Bool) : Except Err ℚ :=
  match env.mids is_testnet asset with
  | some p => .ok p
  | none => .error (.valueError ("Asset " ++ asset ++ " not found in market data"))

/-- Line 130: `data.get('orderType', 'LIMIT').upper()`. -/
def orderTypeStr (data : InputDoc) : String :=
  upperAscii (data.orderType.getD "LIMIT")

/-- The condition of line 133:
`order_type_str == 'MARKET' or not data.get('price')`. -/
def usesMarketPath (data : InputDoc) : Bool :=
  orderTypeStr data == "MARKET" || falsyOptJ data.price

/-- Lines 133-147: the price before tick rounding.  On the market path
the mid price is fetched and a fixed 0.5% slippage is added for buys and
subtracted for sells; otherwise the caller's explicit price is converted
with `float()`. -/
def resolveRawPrice (env : Env) (data : InputDoc) (asset : String)
    (is_buy : Bool) (is_testnet : Bool) : Except Err ℚ :=
  if usesMarketPath data then
    match get_market_price env asset is_testnet with
    | .ok market_price =>
      .ok (if is_buy then market_price * (1 + 5/1000) else market_price * (1 - 5/1000))
    | .error e => .error e
  else
    match data.price with
    | some v => pyFloatE v
    | none => .error (.keyError "price")

/-- Line 150: `price = round(price, 2) if price > 100 else round(price, 4)`. -/
def roundTick (p : ℚ) : ℚ :=
  if p > 100 then roundDec p 2 else roundDec p 4

/-- Line 153: `tif = 'Ioc' if order_type_str == 'MARKET' else
data.get('timeInForce', 'Gtc')`. -/
def resolveTif (data : InputDoc) : String :=
  if orderTypeStr data == "MARKET" then "Ioc" else data.timeInForce.getD "Gtc"

/-- Lines 58-169 (`execute_order`): resolve the identity, read the order
fields (`data['asset']`, `data['isBuy']`, `float(data['size'])`,
`data.get('reduceOnly', False)`), resolve and tick-round the price,
derive the time-in-force, and return the argument tuple passed to
`exchange.order`. -/
def execute_order (env : Env) (data : InputDoc) : Except Err SubmittedOrder :=
  let is_testnet := data.isTestnet.getD true
  match resolveIdentity data with
  | .error e => .error e
  | .ok ident =>
    match getKey data.asset "asset" with
    | .error e => .error e
    | .ok asset =>
      match getKey data.isBuy "isBuy" with
      | .error e => .error e
      | .ok is_buy =>
        match getKey data.size "size" with
        | .error e => .error e
        | .ok szv =>
          match pyFloatE szv with
          | .error e => .error e
          | .ok size =>
            let reduce_only := data.reduceOnly.getD false
            match resolveRawPrice env data asset is_buy is_testnet with
            | .error e => .error e
            | .ok raw =>
              .ok ⟨ident, asset, is_buy, size, roundTick raw, resolveTif data, reduce_only, is_testnet⟩

/-- Lines 172-218 (`cancel_order`): resolve the identity (without the
missing-key guard), read `data['asset']` and `data['orderId']`, and
return the argument tuple passed to `exchange.cancel`. -/
def cancel_order (data : InputDoc) : Except Err SubmittedCancel :=
  let is_testnet := data.isTestnet.getD true
  match resolveIdentityCancel data with
  | .error e => .error e
  | .ok ident =>
    match getKey data.asset "asset" with
    | .error e => .error e
    | .ok asset =>
      match getKey data.orderId "orderId" with
      | .error e => .error e
      | .ok oid => .ok ⟨ident, asset, oid, is_testnet⟩

/-- Lines 221-244 (`get_positions`): read `data['hyperliquidAddress']`
and query the info endpoint for that address's user state. -/
def get_positions (env : Env) (data : InputDoc) : Except Err String :=
  let is_testnet := data.isTestnet.getD true
  match getKey data.hyperliquidAddress "hyperliquidAddress" with
  | .error e => .error e
  | .ok a =>
    match env.positionsResp is_testnet a with
    | .ok r => .ok r
    | .error m => .error (.exchangeError m)

/-- Lines 247-270 (`get_open_orders`): read `data['hyperliquidAddress']`
and query the info endpoint for that address's open orders. -/
def get_open_orders (env : Env) (data : InputDoc) : Except Err String :=
  let is_testnet := data.isTestnet.getD true
  match getKey data.hyperliquidAddress "hyperliquidAddress" with
  | .error e => .error e
  | .ok a =>
    match env.openOrdersResp is_testnet a with
    | .ok r => .ok r
    | .error m => .error (.exchangeError m)

/-- Lines 284-295 of `main`: route on `input_data.get('action', 'order')`
and perform the chosen operation, an unknown action raising
`ValueError("Unknown action: ...")`; for order and cancel the resolved
call is handed to the exchange-client oracle, whose native (string)
response is the result. -/
def dispatchAction (env : Env) (input : InputDoc) : Except Err String :=
  let action := input.action.getD "order"
  if action == "order" then
    match execute_order env input with
    | .error e => .error e
    | .ok o =>
      match env.orderResp o with
      | .ok r => .ok r
      | .error m => .error (.exchangeError m)
  else if action == "cancel" then
    match cancel_order input with
    | .error e => .error e
    | .ok c =>
      match env.cancelResp c with
      | .ok r => .ok r
      | .error m => .error (.exchangeError m)
  else if action == "positions" then
    get_positions env input
  else if action == "open_orders" then
    get_open_orders env input
  else
    .error (.valueError ("Unknown action: " ++ action))

/-- The one JSON document `main` prints: on success the exchange client's
native response verbatim, on failure the fixed two-field
status/message envelope. -/
inductive Output where
  | success (r : String)
  | failure (message : String)
deriving DecidableEq

/-- Lines 273-315 (`main`, after JSON parsing): every exception is caught
and becomes the failure envelope with `str(e)` and exit code 1; a
successful action prints the client's response and exits 0. -/
def mainDispatch (env : Env) (input : InputDoc) : Output × ℕ :=
  match dispatchAction env input with
  | .ok r => (Output.success r, 0)
  | .error e => (Output.failure e.message, 1)


deriving instance DecidableEq for Except

def envTriv : Env where
  mids := fun _ _ => none
  orderResp := fun _ => .ok "OK"
  cancelResp := fun _ => .ok "OK"
  positionsResp := fun _ _ => .ok "OK"
  openOrdersResp := fun _ _ => .ok "OK"

def envEth : Env :=
  { envTriv with mids := fun _ a => if a == "ETH" then some 2000 else none }

def docC1 : InputDoc :=
  { action := some "order", asset := some "ETH", isBuy := some true,
    size := some (.str "1"), isTestnet := some true,
    hyperliquidAddress := some "0xabc...",
    hyperliquidPrivateKey := some "0xdeadbeef..." }

def orderC1 : SubmittedOrder :=
  ⟨⟨"deadbeef...", "0xabc...", false⟩, "ETH", true, 1, 2010, "Gtc", false, true⟩

def docC2 : InputDoc :=
  { action := some "order", asset := some "ETH", isBuy := some true,
    size := some (.num 1), price := some (.num 1900),
    orderType := some "MARKET", timeInForce := some "Alo",
    isTestnet := some true,
    hyperliquidAddress := some "0xabc...",
    hyperliquidPrivateKey := some "0xdeadbeef..." }

def docDirect : InputDoc :=
  { hyperliquidAddress := some "0xabc...",
    hyperliquidPrivateKey := some "0xdeadbeef..." }

def docDeleg : InputDoc :=
  { hyperliquidAddress := some "0xabc...",
    hyperliquidPrivateKey := some "0xmainkey",
    apiWalletPrivateKey := some "0xapikey" }

def docC10 : InputDoc :=
  { action := some "order", asset := some "ETH", isBuy := some false,
    size := some (.num 1), price := some (.num 0),
    orderType := some "LIMIT", isTestnet := some true,
    hyperliquidAddress := some "0xabc...",
    hyperliquidPrivateKey := some "0xdeadbeef..." }

def docC4order : InputDoc :=
  { action := some "order", asset := some "ETH", isBuy := some true,
    size := some (.num 1), isTestnet := some true,
    hyperliquidAddress := some "0xabc..." }

def docC4cancel : InputDoc :=
  { action := some "cancel", asset := some "ETH", orderId := some (.num 12345),
    isTestnet := some true, hyperliquidAddress := some "0xabc..." }

def docC6 : InputDoc :=
  { action := some "order", asset := some "ETH", isBuy := some true,
    size := some (.num 1), price := some (.num (-5)),
    isTestnet := some true,
    hyperliquidAddress := some "0xabc...",
    hyperliquidPrivateKey := some "0xdeadbeef..." }

def orderC6 : SubmittedOrder :=
  ⟨⟨"deadbeef...", "0xabc...", false⟩, "ETH", true, 1, -5, "Gtc", false, true⟩

def docC6b : InputDoc :=
  { action := some "order", asset := some "ETH", isBuy := some true,
    size := some (.num 1), price := some (.num 50),
    isTestnet := some true,
    hyperliquidAddress := some "0xabc...",
    hyperliquidPrivateKey := some "0xdeadbeef..." }

def orderC6b : SubmittedOrder :=
  ⟨⟨"deadbeef...", "0xabc...", false⟩, "ETH", true, 1, 50, "Gtc", false, true⟩

def docC7 : InputDoc :=
  { action := some "order", asset := some "", isBuy := some true,
    size := some (.num (-1)), price := some (.num 50),
    isTestnet := some true,
    hyperliquidAddress := some "0xabc...",
    hyperliquidPrivateKey := some "0xdeadbeef..." }

def orderC7 : SubmittedOrder :=
  ⟨⟨"deadbeef...", "0xabc...", false⟩, "", true, -1, 50, "Gtc", false, true⟩

def docC7w : InputDoc :=
  { action := some "order", asset := some "", isBuy := some false,
    size := some (.str "-2"), price := some (.num 50),
    isTestnet := some true,
    hyperliquidAddress := some "0xabc...",
    hyperliquidPrivateKey := some "0xdeadbeef..." }

def docC8 : InputDoc :=
  { action := some "order", asset := some "ETH", isBuy := some true,
    size := some (.num 1), isTestnet := some true,
    apiWalletPrivateKey := some "0xapikey" }

def docC8w : InputDoc :=
  { action := some "cancel", asset := some "ETH", orderId := some (.num 7),
    apiWalletPrivateKey := some "0xotherkey" }

lemma roundHalfEven_intCast (n : ℤ) : roundHalfEven (n : ℚ) = n := by
  unfold roundHalfEven
  rw [Int.floor_intCast]
  norm_num

lemma roundDec_exact (q : ℚ) (n : ℕ) (m : ℤ) (h : q * 10 ^ n = (m : ℚ)) :
    roundDec q n = q := by
  unfold roundDec
  rw [h, roundHalfEven_intCast, ← h]
  field_simp

lemma roundHalfEven_ge_floor (q : ℚ) : ⌊q⌋ ≤ roundHalfEven q := by
  unfold roundHalfEven
  split_ifs <;> omega

lemma roundDec_pos (q : ℚ) (n : ℕ) (h : 1 ≤ q * 10 ^ n) : 0 < roundDec q n := by
  have h1 : (1 : ℤ) ≤ ⌊q * 10 ^ n⌋ := by
    rw [Int.le_floor]
    exact_mod_cast h
  have h2 := roundHalfEven_ge_floor (q * 10 ^ n)
  unfold roundDec
  apply div_pos
  · exact_mod_cast lt_of_lt_of_le zero_lt_one (le_trans h1 h2)
  · positivity

lemma roundTick_pos (p : ℚ) (hp : 1/10000 ≤ p) : 0 < roundTick p := by
  unfold roundTick
  have e2 : ((10 : ℚ)) ^ (2:ℕ) = 100 := by norm_num
  have e4 : ((10 : ℚ)) ^ (4:ℕ) = 10000 := by norm_num
  split_ifs with h
  · exact roundDec_pos p 2 (by rw [e2]; nlinarith)
  · exact roundDec_pos p 4 (by rw [e4]; nlinarith)

lemma roundDec_den (q : ℚ) (n : ℕ) : (roundDec q n * 10 ^ n).den = 1 := by
  unfold roundDec
  rw [div_mul_cancel₀]
  · exact Rat.den_intCast _
  · positivity

lemma resolveRawPrice_market (env : Env) (data : InputDoc) (asset : String)
    (b tn : Bool) (P : ℚ)
    (hmp : usesMarketPath data = true)
    (hm : env.mids tn asset = some P) :
    resolveRawPrice env data asset b tn =
      .ok (if b then P * (1005/1000) else P * (995/1000)) := by
  unfold resolveRawPrice
  rw [if_pos hmp]
  unfold get_market_price
  rw [hm]
  cases b <;> norm_num

lemma execute_order_ok_of (env : Env) (data : InputDoc) (ident : Identity)
    (asset : String) (b : Bool) (szv : JVal) (q raw : ℚ)
    (h1 : resolveIdentity data = .ok ident)
    (h2 : data.asset = some asset)
    (h3 : data.isBuy = some b)
    (h4 : data.size = some szv)
    (h5 : pyFloatE szv = .ok q)
    (h6 : resolveRawPrice env data asset b (data.isTestnet.getD true) = .ok raw) :
    execute_order env data =
      .ok ⟨ident, asset, b, q, roundTick raw, resolveTif data,
           data.reduceOnly.getD false, data.isTestnet.getD true⟩ := by
  simp only [execute_order, h1, h2, h3, h4, h5, h6, getKey]

lemma execute_order_ok_elim (env : Env) (data : InputDoc) (o : SubmittedOrder)
    (h : execute_order env data = .ok o) :
    ∃ raw, resolveRawPrice env data o.asset o.isBuy (data.isTestnet.getD true) = .ok raw ∧
      o.price = roundTick raw ∧ o.tif = resolveTif data ∧
      o.reduceOnly = data.reduceOnly.getD false := by
  unfold execute_order at h
  cases hI : resolveIdentity data <;> simp only [hI] at h
  case error => exact Except.noConfusion h
  case ok ident =>
  cases hA : getKey data.asset "asset" <;> simp only [hA] at h
  case error => exact Except.noConfusion h
  case ok asset =>
  cases hB : getKey data.isBuy "isBuy" <;> simp only [hB] at h
  case error => exact Except.noConfusion h
  case ok b =>
  cases hS : getKey data.size "size" <;> simp only [hS] at h
  case error => exact Except.noConfusion h
  case ok szv =>
  cases hF : pyFloatE szv <;> simp only [hF] at h
  case error => exact Except.noConfusion h
  case ok q =>
  cases hR : resolveRawPrice env data asset b (data.isTestnet.getD true) <;> simp only [hR] at h
  case error => exact Except.noConfusion h
  case ok raw =>
  injection h with h2
  subst h2
  exact ⟨raw, hR, rfl, rfl, rfl⟩

lemma roundTick_2010 : roundTick 2010 = 2010 := by
  unfold roundTick
  rw [if_pos (by norm_num)]
  exact roundDec_exact 2010 2 201000 (by norm_num)

lemma docC1_eval : execute_order envEth docC1 = .ok orderC1 := by
  have h2 : resolveRawPrice envEth docC1 "ETH" true (docC1.isTestnet.getD true) = .ok 2010 := by
    have h := resolveRawPrice_market envEth docC1 "ETH" true (docC1.isTestnet.getD true) 2000
      (by decide) (by decide)
    rw [h]
    norm_num
  have := execute_order_ok_of envEth docC1 ⟨"deadbeef...", "0xabc...", false⟩
    "ETH" true (.str "1") 1 2010 (by decide) rfl rfl rfl (by decide) h2
  rw [this, roundTick_2010]
  decide

/-- C1 (counterexample): on the spec's example input (no `orderType`, no
`price`, reference mid 2000 for ETH) the executed order's time-in-force is
`"Gtc"`, not the `"Ioc"` the claim states: `orderType` defaults to
`LIMIT`, and line 153 forces `Ioc` only when it is `MARKET`. -/
theorem C1_counterexample :
    (execute_order envEth docC1).map SubmittedOrder.tif = .ok "Gtc" ∧
    ("Gtc" : String) ≠ "Ioc" := by
  constructor
  · rw [docC1_eval]; rfl
  · decide

/-- C1 (amended): on the spec's example input with reference mid 2000 for
ETH, the order handed to the exchange client has price 2010, time-in-force
`"Gtc"` (the default, since the request declares no order kind), and
reduce-only false. -/
theorem C1_amended : execute_order envEth docC1 = .ok orderC1 := docC1_eval

/-- C2 (confirmed): whenever the request declares kind MARKET, or declares
kind LIMIT (or no kind) and supplies no explicit price, and the feed mid
price for the asset is P, the price before tick rounding is P·1.005 for
buys and P·0.995 for sells; kind MARKET forces time-in-force `"Ioc"`
regardless of the caller's `timeInForce`, and any other kind uses the
caller's `timeInForce` or the default `"Gtc"`. -/
theorem C2_market_slippage_and_tif (env : Env) (data : InputDoc) (asset : String)
    (b tn : Bool) (P : ℚ)
    (hmids : env.mids tn asset = some P)
    (hkind : orderTypeStr data = "MARKET" ∨
      ((data.orderType = none ∨ orderTypeStr data = "LIMIT") ∧ data.price = none)) :
    resolveRawPrice env data asset b tn =
      .ok (if b then P * (1005/1000) else P * (995/1000)) ∧
    (orderTypeStr data = "MARKET" → resolveTif data = "Ioc") ∧
    (orderTypeStr data ≠ "MARKET" → resolveTif data = data.timeInForce.getD "Gtc") := by
  have hmp : usesMarketPath data = true := by
    unfold usesMarketPath
    rcases hkind with h | ⟨_, hp⟩
    · simp [h]
    · simp [hp, falsyOptJ]
  refine ⟨resolveRawPrice_market env data asset b tn P hmp hmids, ?_, ?_⟩
  · intro h
    unfold resolveTif
    simp [h]
  · intro h
    unfold resolveTif
    simp [h]

/-- Witness for C2: a MARKET request with an explicit price 1900 and
caller time-in-force `"Alo"` still resolves to the slippage-padded feed
price and `"Ioc"`. -/
theorem C2_witness :
    resolveRawPrice envEth docC2 "ETH" true true =
      .ok (if true then (2000 : ℚ) * (1005/1000) else (2000 : ℚ) * (995/1000)) ∧
    resolveTif docC2 = "Ioc" := by
  have h := C2_market_slippage_and_tif envEth docC2 "ETH" true true 2000
    (by decide) (Or.inl (by decide))
  exact ⟨h.1, h.2.1 (by decide)⟩

/-- C3 (confirmed): with direct credentials (no API-wallet key, a
non-empty main private key, an address) the resolved identity signs with
the `0x`-stripped main key and is attributed to the supplied address;
with delegated credentials (a non-empty API-wallet key) it signs with the
`0x`-stripped API-wallet key and is attributed to the separately supplied
address, never one derived from the secret. -/
theorem C3_identity_resolution (data : InputDoc) (k a : String) :
    (data.apiWalletPrivateKey = none → data.hyperliquidPrivateKey = some k → k ≠ "" →
      data.hyperliquidAddress = some a →
      resolveIdentity data = .ok ⟨strip0x k, a, false⟩) ∧
    (data.apiWalletPrivateKey = some k → k ≠ "" → data.hyperliquidAddress = some a →
      resolveIdentity data = .ok ⟨strip0x k, a, true⟩) := by
  constructor
  · intro hapi hkey hk haddr
    unfold resolveIdentity
    simp [hapi, hkey, haddr, truthyS, hk]
  · intro hapi hk haddr
    unfold resolveIdentity
    simp [hapi, haddr, truthyS, hk]

/-- Witness for C3: a concrete direct-credential document and a concrete
delegated-credential document resolved through the claim. -/
theorem C3_witness :
    resolveIdentity docDirect = .ok ⟨strip0x "0xdeadbeef...", "0xabc...", false⟩ ∧
    resolveIdentity docDeleg = .ok ⟨strip0x "0xapikey", "0xabc...", true⟩ :=
  ⟨(C3_identity_resolution docDirect "0xdeadbeef..." "0xabc...").1 rfl rfl (by decide) rfl,
   (C3_identity_resolution docDeleg "0xapikey" "0xabc...").2 rfl (by decide) rfl⟩

/-- C10 (confirmed): a `price` field that is present but falsy — the JSON
number 0 or the empty string — is treated exactly like an absent price:
the mid price is fetched and the ±0.5% slippage applied, whatever the
declared order type (in particular for LIMIT). -/
theorem C10_falsy_price (env : Env) (data : InputDoc) (asset : String)
    (b tn : Bool) (P : ℚ) (v : JVal)
    (hp : data.price = some v)
    (hv : v = JVal.num 0 ∨ v = JVal.str "")
    (hm : env.mids tn asset = some P) :
    resolveRawPrice env data asset b tn =
      .ok (if b then P * (1005/1000) else P * (995/1000)) := by
  have hmp : usesMarketPath data = true := by
    unfold usesMarketPath
    rcases hv with h | h <;> simp [hp, h, falsyOptJ, falsyJ]
  exact resolveRawPrice_market env data asset b tn P hmp hm

/-- Witness for C10: a LIMIT sell with `price: 0` resolves to the
slippage-discounted feed price. -/
theorem C10_witness :
    resolveRawPrice envEth docC10 "ETH" false true =
      .ok (if false then (2000 : ℚ) * (1005/1000) else (2000 : ℚ) * (995/1000)) :=
  C10_falsy_price envEth docC10 "ETH" false true 2000 (.num 0) rfl (Or.inl rfl) (by decide)

/-- C4 (code bug): with both credential fields missing, an order request
does fail with the `No private key provided` envelope and exit code 1,
but a cancel request crashes at `secret_key.startswith('0x')` with an
`AttributeError` instead — `cancel_order` lacks the `if not secret_key`
guard that `execute_order` has.  Quantifying over every environment shows
neither path touches the network. -/
theorem C4_eval : ∀ env : Env,
    mainDispatch env docC4order =
      (Output.failure "No private key provided (neither apiWalletPrivateKey nor hyperliquidPrivateKey)", 1) ∧
    mainDispatch env docC4cancel =
      (Output.failure "'NoneType' object has no attribute 'startswith'", 1) := by
  intro env
  exact ⟨rfl, rfl⟩

/-- C5 (confirmed): tick rounding yields a multiple of 0.01 for prices
above 100 and a multiple of 0.0001 otherwise (denominator 1 after scaling
by 100 resp. 10000), and every successfully executed order's final price
is `roundTick` of the resolved raw price — the same rounding regardless
of whether the raw price came from the reference-price-plus-slippage path
or from the caller's explicit price. -/
theorem C5_tick_rounding (p : ℚ) (env : Env) (data : InputDoc) (o : SubmittedOrder) :
    (100 < p → (roundTick p * 100).den = 1) ∧
    (p ≤ 100 → (roundTick p * 10000).den = 1) ∧
    (execute_order env data = .ok o →
      ∃ raw, resolveRawPrice env data o.asset o.isBuy (data.isTestnet.getD true) = .ok raw ∧
        o.price = roundTick raw) := by
  refine ⟨?_, ?_, ?_⟩
  · intro h
    unfold roundTick
    rw [if_pos h]
    have := roundDec_den p 2
    rwa [show ((10:ℚ) ^ (2:ℕ)) = 100 from by norm_num] at this
  · intro h
    unfold roundTick
    rw [if_neg (by exact not_lt.mpr h)]
    have := roundDec_den p 4
    rwa [show ((10:ℚ) ^ (4:ℕ)) = 10000 from by norm_num] at this
  · intro h
    obtain ⟨raw, hR, hP, _, _⟩ := execute_order_ok_elim env data o h
    exact ⟨raw, hR, hP⟩

/-- Witness for C5: tick rounding at 200 (> 100) and 50 (≤ 100), and the
rounding link on the concrete executed order of the spec's example. -/
theorem C5_witness :
    (roundTick 200 * 100).den = 1 ∧ (roundTick 50 * 10000).den = 1 ∧
    (∃ raw, resolveRawPrice envEth docC1 orderC1.asset orderC1.isBuy
        (docC1.isTestnet.getD true) = .ok raw ∧ orderC1.price = roundTick raw) :=
  ⟨(C5_tick_rounding 200 envEth docC1 orderC1).1 (by norm_num),
   (C5_tick_rounding 50 envEth docC1 orderC1).2.1 (by norm_num),
   (C5_tick_rounding 0 envEth docC1 orderC1).2.2 docC1_eval⟩

lemma docC6_eval : execute_order envEth docC6 = .ok orderC6 := by
  have h2 : resolveRawPrice envEth docC6 "ETH" true (docC6.isTestnet.getD true) = .ok (-5) := by
    unfold resolveRawPrice
    rw [if_neg (by decide)]
    rfl
  have h3 : roundTick (-5) = -5 := by
    unfold roundTick
    rw [if_neg (by norm_num)]
    exact roundDec_exact (-5) 4 (-50000) (by norm_num)
  have h := execute_order_ok_of envEth docC6 ⟨"deadbeef...", "0xabc...", false⟩
    "ETH" true (.num 1) 1 (-5) (by decide) rfl rfl rfl rfl h2
  rw [h, h3]
  decide

/-- C6 (counterexample): a caller-supplied explicit price of −5 flows
through untouched — the submitted order's final price is −5, refuting the
claim that the final price is always strictly positive. -/
theorem C6_counterexample :
    execute_order envEth docC6 = .ok orderC6 ∧ ¬ (0 < orderC6.price) := by
  refine ⟨docC6_eval, ?_⟩
  show ¬ (0 : ℚ) < -5
  norm_num

/-- C6 (amended): the final price of a successfully executed order is
strictly positive whenever the resolved pre-rounding price is at least
one tick (0.0001); a caller-supplied explicit price that is zero,
negative, or below half a tick escapes this guarantee because the script
never validates the price sign. -/
theorem C6_amended (env : Env) (data : InputDoc) (o : SubmittedOrder) (raw : ℚ)
    (h : execute_order env data = .ok o)
    (hraw : resolveRawPrice env data o.asset o.isBuy (data.isTestnet.getD true) = .ok raw)
    (hpos : 1/10000 ≤ raw) : 0 < o.price := by
  obtain ⟨raw2, hr2, hp2, _, _⟩ := execute_order_ok_elim env data o h
  rw [hraw] at hr2
  injection hr2 with e
  rw [hp2]
  exact roundTick_pos raw2 (e ▸ hpos)

lemma docC6b_eval : execute_order envEth docC6b = .ok orderC6b := by
  have h2 : resolveRawPrice envEth docC6b "ETH" true (docC6b.isTestnet.getD true) = .ok 50 := by
    unfold resolveRawPrice
    rw [if_neg (by decide)]
    rfl
  have h3 : roundTick 50 = 50 := by
    unfold roundTick
    rw [if_neg (by norm_num)]
    exact roundDec_exact 50 4 500000 (by norm_num)
  have h := execute_order_ok_of envEth docC6b ⟨"deadbeef...", "0xabc...", false⟩
    "ETH" true (.num 1) 1 50 (by decide) rfl rfl rfl rfl h2
  rw [h, h3]
  decide

/-- Witness for C6 (amended): the order resolved from an explicit price
of 50 has a strictly positive final price. -/
theorem C6_witness : 0 < orderC6b.price :=
  C6_amended envEth docC6b orderC6b 50 docC6b_eval
    (by
      unfold resolveRawPrice
      rw [if_neg (by decide)]
      rfl)
    (by norm_num)

lemma roundTick_50 : roundTick 50 = 50 := by
  unfold roundTick
  rw [if_neg (by norm_num)]
  exact roundDec_exact 50 4 500000 (by norm_num)

lemma docC7_eval : execute_order envEth docC7 = .ok orderC7 := by
  have h2 : resolveRawPrice envEth docC7 "" true (docC7.isTestnet.getD true) = .ok 50 := by
    unfold resolveRawPrice
    rw [if_neg (by decide)]
    rfl
  have h := execute_order_ok_of envEth docC7 ⟨"deadbeef...", "0xabc...", false⟩
    "" true (.num (-1)) (-1) 50 (by decide) rfl rfl rfl rfl h2
  rw [h, roundTick_50]
  decide

/-- C7 (counterexample): an order request with size −1 and an empty asset
string is executed without any `ValidationError` — the script submits the
order with size −1 and asset `""` to the exchange client, refuting the
claim that assembly validates size positivity and asset non-emptiness. -/
theorem C7_counterexample :
    execute_order envEth docC7 = .ok orderC7 ∧
    orderC7.size = -1 ∧ orderC7.asset = "" := by
  exact ⟨docC7_eval, rfl, rfl⟩

/-- C7 (amended): order assembly performs no positive-size and no
non-empty-asset validation: whenever the identity resolves, `asset`,
`isBuy` and `size` are present, Python `float()` accepts the size value
(any sign included), and the price resolves, the order is submitted with
exactly the given size and asset; the only size-related failure mode is
`float()` itself raising on a non-numeric value. -/
theorem C7_amended (env : Env) (data : InputDoc) (ident : Identity)
    (asset : String) (b : Bool) (szv : JVal) (q raw : ℚ)
    (h1 : resolveIdentity data = .ok ident)
    (h2 : data.asset = some asset)
    (h3 : data.isBuy = some b)
    (h4 : data.size = some szv)
    (h5 : pyFloatE szv = .ok q)
    (h6 : resolveRawPrice env data asset b (data.isTestnet.getD true) = .ok raw) :
    execute_order env data =
      .ok ⟨ident, asset, b, q, roundTick raw, resolveTif data,
           data.reduceOnly.getD false, data.isTestnet.getD true⟩ :=
  execute_order_ok_of env data ident asset b szv q raw h1 h2 h3 h4 h5 h6

/-- Witness for C7 (amended): a sell with size string "-2" and empty
asset is assembled and submitted unvalidated. -/
theorem C7_witness :
    execute_order envEth docC7w =
      .ok ⟨⟨"deadbeef...", "0xabc...", false⟩, "", false, -2, roundTick 50,
           resolveTif docC7w, docC7w.reduceOnly.getD false, docC7w.isTestnet.getD true⟩ :=
  C7_amended envEth docC7w ⟨"deadbeef...", "0xabc...", false⟩
    "" false (.str "-2") (-2) 50 (by decide) rfl rfl rfl (by decide)
    (by
      unfold resolveRawPrice
      rw [if_neg (by decide)]
      rfl)

/-- C8 (counterexample): with a delegated key present and the account
address absent, identity resolution fails with `KeyError
'hyperliquidAddress'` — whose envelope message is `'hyperliquidAddress'`,
not the claimed `ConfigurationError` "no account address". -/
theorem C8_counterexample :
    resolveIdentity docC8 = .error (.keyError "hyperliquidAddress") ∧
    Err.message (.keyError "hyperliquidAddress") ≠ "no account address" := by
  exact ⟨by decide, by decide⟩

/-- C8 (amended): for every request with a non-empty delegated key and no
account address, identity resolution raises `KeyError` on
`hyperliquidAddress` (the bare `data['hyperliquidAddress']` lookup),
rather than a dedicated configuration error. -/
theorem C8_amended (data : InputDoc) (k : String)
    (hapi : data.apiWalletPrivateKey = some k) (hk : k ≠ "")
    (haddr : data.hyperliquidAddress = none) :
    resolveIdentity data = .error (.keyError "hyperliquidAddress") := by
  unfold resolveIdentity
  simp [hapi, haddr, truthyS, hk]

/-- Witness for C8 (amended): a concrete delegated-key document without
an address fails with the `hyperliquidAddress` key error. -/
theorem C8_witness :
    resolveIdentity docC8w = .error (.keyError "hyperliquidAddress") :=
  C8_amended docC8w "0xotherkey" rfl (by decide) rfl

/-- C9 (confirmed): whenever the routed operation succeeds and the
exchange client returns a native success response, the dispatcher's
output is exactly that response with exit code 0 — the envelope layer
adds and removes nothing on the success path, for each of the four
actions. -/
theorem C9_success_passthrough (env : Env) (input : InputDoc) :
    (∀ o r, input.action.getD "order" = "order" → execute_order env input = .ok o →
      env.orderResp o = .ok r → mainDispatch env input = (Output.success r, 0)) ∧
    (∀ c r, input.action.getD "order" = "cancel" → cancel_order input = .ok c →
      env.cancelResp c = .ok r → mainDispatch env input = (Output.success r, 0)) ∧
    (∀ a r, input.action.getD "order" = "positions" → input.hyperliquidAddress = some a →
      env.positionsResp (input.isTestnet.getD true) a = .ok r →
      mainDispatch env input = (Output.success r, 0)) ∧
    (∀ a r, input.action.getD "order" = "open_orders" → input.hyperliquidAddress = some a →
      env.openOrdersResp (input.isTestnet.getD true) a = .ok r →
      mainDispatch env input = (Output.success r, 0)) := by
  refine ⟨?_, ?_, ?_, ?_⟩
  · intro o r ha h1 h2
    unfold mainDispatch dispatchAction
    simp [ha, h1, h2]
  · intro c r ha h1 h2
    unfold mainDispatch dispatchAction
    simp [ha, h1, h2]
  · intro a r ha h1 h2
    unfold mainDispatch dispatchAction get_positions
    simp [ha, h1, h2, getKey]
  · intro a r ha h1 h2
    unfold mainDispatch dispatchAction get_open_orders
    simp [ha, h1, h2, getKey]

/-- Witness for C9: the spec's example order document dispatched against
an exchange client answering "OK" outputs exactly "OK" with exit code 0. -/
theorem C9_witness : mainDispatch envEth docC1 = (Output.success "OK", 0) :=
  (C9_success_passthrough envEth docC1).1 orderC1 "OK" rfl docC1_eval rfl

